import Mathlib

/-!
Verification of the OS interaction layer of the zellij server
(`zellij-server/src/os_input_output.rs`).

The Rust source is shallowly embedded: pure decision logic becomes Lean
functions, OS side effects (ioctl, kill, waitpid, sleeping, signal checks)
become explicit event traces, and the `ServerOsInputOutput` struct becomes a
record threaded through the operations that read or mutate it.  Machine
integers that are never arithmetically combined (file descriptors, client
ids, u16 dimensions) are modelled as `Int`/`Nat`.
-/

namespace Zellij

/-! ## Terminal size (set_terminal_size_using_fd) -/

/-- A terminal-control call observable at the OS boundary. -/
inductive TermCtlCall where
  | ioctlSetWinsize (fd : Int) (cols rows : Nat)
deriving DecidableEq

/-- The free function `set_terminal_size_using_fd`: builds a `Winsize` from
`columns`/`rows` and unconditionally issues `ioctl(fd, TIOCSWINSZ, &winsize)`.
Modelled as the trace of terminal-control calls it performs. -/
def set_terminal_size_using_fd (fd : Int) (columns rows : Nat) : List TermCtlCall :=
  [TermCtlCall.ioctlSetWinsize fd columns rows]

/-- `ServerOsApi::set_terminal_size_using_fd` for `ServerOsInputOutput`:
`if cols > 0 && rows > 0 { set_terminal_size_using_fd(fd, cols, rows); }`. -/
def server_set_terminal_size (fd : Int) (cols rows : Nat) : List TermCtlCall :=
  if 0 < cols ∧ 0 < rows then set_terminal_size_using_fd fd cols rows else []

/-! ## Run-target resolution (spawn_terminal) -/

/-- `zellij_utils::input::command::RunCommand`: an executable path and its
argument list. Paths are modelled as strings. -/
structure RunCommand where
  command : String
  args : List String
deriving DecidableEq

/-- `zellij_utils::input::command::TerminalAction`. -/
inductive TerminalAction where
  | openFile (file : String)
  | runCommand (cmd : RunCommand)
deriving DecidableEq

/-- The process environment: `env::var` returns `Ok(value)` for a set
variable, modelled as `some value`, and `Err` otherwise, modelled as `none`. -/
def Env : Type := String → Option String

/-- Outcome of the command-resolution phase of `spawn_terminal`: either a
`RunCommand` to hand to `handle_terminal`, or one of the two fatal
(process-terminating) failures. -/
inductive ResolvedCmd where
  | ok (cmd : RunCommand)
  /-- OpenFile with neither EDITOR nor VISUAL set: the code reaches the
  explicit editor-missing message and terminates the process. -/
  | fatalMissingEditor
  /-- No action and SHELL unset: `env::var("SHELL").expect(..)` terminates
  the process. -/
  | fatalMissingShell
deriving DecidableEq

/-- The resolution phase at the top of `spawn_terminal` (the `let cmd = match
terminal_action { .. }` block). For `OpenFile`, the source first panics when
both `EDITOR` and `VISUAL` are unset, then takes
`env::var("EDITOR").unwrap_or_else(|_| env::var("VISUAL").unwrap())`: `EDITOR`
when set, otherwise `VISUAL` (set in that remaining case), with argument list
`[file_to_open]`.  An explicit `RunCommand` passes through unchanged; `None`
resolves `SHELL` with no arguments. -/
def spawn_terminal_run_target (env : Env) : Option TerminalAction → ResolvedCmd
  | some (TerminalAction.openFile file_to_open) =>
    match env "EDITOR", env "VISUAL" with
    | none, none => ResolvedCmd.fatalMissingEditor
    | some e, _ => ResolvedCmd.ok ⟨e, [file_to_open]⟩
    | none, some v => ResolvedCmd.ok ⟨v, [file_to_open]⟩
  | some (TerminalAction.runCommand command) => ResolvedCmd.ok command
  | none =>
    match env "SHELL" with
    | none => ResolvedCmd.fatalMissingShell
    | some sh => ResolvedCmd.ok ⟨sh, []⟩

/-- An environment with only `EDITOR` set. -/
def envEditorOnly : Env := fun s => if s = "EDITOR" then some "/usr/bin/vim" else none

/-- An environment with only `VISUAL` set. -/
def envVisualOnly : Env := fun s => if s = "VISUAL" then some "/usr/bin/emacs" else none

/-- An empty environment. -/
def envEmpty : Env := fun _ => none

/-! ## Child supervisor (handle_command_exit) -/

/-- Result of one `child.try_wait()` poll. -/
inductive TryWaitRes where
  | exited
  | running
  | waitErr
deriving DecidableEq

/-- One observable event of the `handle_command_exit` loop. -/
inductive SupEvent where
  /-- `try_wait` returned `Ok(Some(status))`: the loop breaks. -/
  | reap
  /-- `try_wait` returned `Err(e)`: the supervisor panics. -/
  | panicHit
  /-- The 10 ms sleep taken after seeing the child still running. -/
  | pollSleep
  /-- `signals.pending()` drained, looking for SIGINT/SIGTERM. -/
  | checkSignals
  /-- A pending SIGINT/SIGTERM was found: `should_exit` set to true. -/
  | escalate
  /-- `kill(child_pid, SIGTERM)` issued ("let's try nicely first"). -/
  | sendTerm
  /-- `child.kill()` issued (SIGKILL), after which the loop breaks. -/
  | sendKill
deriving DecidableEq

/-- The mutable locals of `handle_command_exit`. -/
structure SupState where
  should_exit : Bool
  attempts : Nat
deriving DecidableEq

/-- The `handle_command_exit` loop, fuelled.  `iter` counts loop iterations;
`tw iter` is what `child.try_wait()` reports at iteration `iter`, and
`sig iter` whether SIGINT or SIGTERM is among `signals.pending()` when checked
at iteration `iter`.  The result is the trace of events the loop performs.
Per the source: an exit status breaks the loop immediately; a wait error
panics; otherwise the loop sleeps, then either drains pending signals (only
while `should_exit` is false), or sends SIGTERM while attempts remain, or
sends the final kill and breaks.  `kill(..).unwrap()` is modelled as always
succeeding (the child pid exists while the loop runs). -/
def handle_command_exit : Nat → Nat → SupState → (Nat → TryWaitRes) → (Nat → Bool) →
    List SupEvent
  | 0, _, _, _, _ => []
  | fuel+1, iter, st, tw, sig =>
    match tw iter with
    | TryWaitRes.exited => [SupEvent.reap]
    | TryWaitRes.waitErr => [SupEvent.panicHit]
    | TryWaitRes.running =>
      SupEvent.pollSleep ::
        (if st.should_exit = false then
          if sig iter then
            SupEvent.checkSignals :: SupEvent.escalate ::
              handle_command_exit fuel (iter+1) ⟨true, st.attempts⟩ tw sig
          else
            SupEvent.checkSignals :: handle_command_exit fuel (iter+1) st tw sig
        else if 0 < st.attempts then
          SupEvent.sendTerm ::
            handle_command_exit fuel (iter+1) ⟨st.should_exit, st.attempts - 1⟩ tw sig
        else
          [SupEvent.sendKill])

/-- The trace of `k` idle iterations: the child is running and no signal is
pending, so each iteration only sleeps and drains (empty) pending signals. -/
def idleTrace : Nat → List SupEvent
  | 0 => []
  | k+1 => SupEvent.pollSleep :: SupEvent.checkSignals :: idleTrace k

/-- The trace of the escalation phase, entered with `should_exit = true` and
`attempts = 3` against a child that keeps running. -/
def escalationTail : List SupEvent :=
  [SupEvent.pollSleep, SupEvent.sendTerm, SupEvent.pollSleep, SupEvent.sendTerm,
   SupEvent.pollSleep, SupEvent.sendTerm, SupEvent.pollSleep, SupEvent.sendKill]

/-- The subsequence of signals the supervisor sent to the child. -/
def signalsSent (tr : List SupEvent) : List SupEvent :=
  tr.filter fun e => e = SupEvent.sendTerm ∨ e = SupEvent.sendKill

/-- Scans a trace checking that every signal sent to the child (beyond the
first, thanks to the initial accumulator `true`) is preceded by at least one
poll-interval sleep since the previous signal. -/
def sleepSeparated : List SupEvent → Bool → Bool
  | [], _ => true
  | SupEvent.pollSleep :: rest, _ => sleepSeparated rest true
  | SupEvent.sendTerm :: rest, seen => seen && sleepSeparated rest false
  | SupEvent.sendKill :: rest, seen => seen && sleepSeparated rest false
  | SupEvent.reap :: rest, seen => sleepSeparated rest seen
  | SupEvent.panicHit :: rest, seen => sleepSeparated rest seen
  | SupEvent.checkSignals :: rest, seen => sleepSeparated rest seen
  | SupEvent.escalate :: rest, seen => sleepSeparated rest seen

/-- Scans a trace checking that no pending-signal drain happens once
escalation has begun (accumulator: escalation seen so far). -/
def noCheckAfterEscalate : List SupEvent → Bool → Bool
  | [], _ => true
  | SupEvent.checkSignals :: rest, esc => !esc && noCheckAfterEscalate rest esc
  | SupEvent.escalate :: rest, _ => noCheckAfterEscalate rest true
  | SupEvent.reap :: rest, esc => noCheckAfterEscalate rest esc
  | SupEvent.panicHit :: rest, esc => noCheckAfterEscalate rest esc
  | SupEvent.pollSleep :: rest, esc => noCheckAfterEscalate rest esc
  | SupEvent.sendTerm :: rest, esc => noCheckAfterEscalate rest esc
  | SupEvent.sendKill :: rest, esc => noCheckAfterEscalate rest esc

/-! ## Process signalling (ServerOsApi::kill / force_kill) -/

/-- What the OS knows about a process id at the time of a call: still running,
exited but not yet reaped (a zombie, still signallable and waitable), or
already reaped (no such process). -/
inductive ProcState where
  | running
  | zombie
  | reaped
deriving DecidableEq

/-- The two signals this layer sends through `nix::sys::signal::kill`. -/
inductive Sig where
  | SIGTERM
  | SIGKILL
deriving DecidableEq

/-- Errno values relevant to these calls. -/
inductive NixError where
  | ESRCH
  | ECHILD
deriving DecidableEq

/-- `kill(2)`: delivering a signal to a running process or a zombie succeeds;
to an already-reaped (nonexistent) pid it fails with ESRCH. -/
def kill_syscall (ps : ProcState) (_s : Sig) : Except NixError Unit :=
  match ps with
  | ProcState.reaped => Except.error NixError.ESRCH
  | _ => Except.ok ()

/-- `waitpid(2)` on the pid: a zombie is reaped immediately; a reaped pid
fails with ECHILD; a running child blocks until it exits (modelled as the
eventual successful return). -/
def waitpid_syscall (ps : ProcState) : Except NixError Unit :=
  match ps with
  | ProcState.reaped => Except.error NixError.ECHILD
  | _ => Except.ok ()

/-- A syscall the kill operations perform, as an observable event. -/
inductive OsCall where
  | killCall (s : Sig)
  | waitpidCall
deriving DecidableEq

/-- How a call into the capability interface ends: a returned value, or a
panic (`unwrap` on an `Err`), which never returns to the caller. -/
inductive KillOutcome where
  | ret (r : Except NixError Unit)
  | panicked

/-- `ServerOsApi::kill` for `ServerOsInputOutput`:
`kill(pid, Some(Signal::SIGTERM)).unwrap(); waitpid(pid, None).unwrap();
Ok(())`.  Both unwraps turn a syscall error into a panic. -/
def server_kill (ps : ProcState) : List OsCall × KillOutcome :=
  match kill_syscall ps Sig.SIGTERM with
  | Except.error _ => ([OsCall.killCall Sig.SIGTERM], KillOutcome.panicked)
  | Except.ok _ =>
    match waitpid_syscall ps with
    | Except.error _ =>
      ([OsCall.killCall Sig.SIGTERM, OsCall.waitpidCall], KillOutcome.panicked)
    | Except.ok _ =>
      ([OsCall.killCall Sig.SIGTERM, OsCall.waitpidCall], KillOutcome.ret (Except.ok ()))

/-- `ServerOsApi::force_kill` for `ServerOsInputOutput`:
`let _ = kill(pid, Some(Signal::SIGKILL)); Ok(())`.  The syscall result is
discarded and the call always returns `Ok(())`, with no `waitpid`. -/
def force_kill (ps : ProcState) : List OsCall × KillOutcome :=
  let _ := kill_syscall ps Sig.SIGKILL
  ([OsCall.killCall Sig.SIGKILL], KillOutcome.ret (Except.ok ()))

/-! ## Server state: origin termios and the client channel registry -/

/-- Abstract terminal attributes (`termios::Termios`); the fields are opaque
to this layer, which only snapshots and forwards them. -/
structure Termios where
  attrs : Nat
deriving DecidableEq

/-- Client identity. -/
abbrev ClientId := Nat

/-- A local socket connection, identified abstractly. -/
structure LocalSocketStream where
  conn : Nat
deriving DecidableEq

/-- `IpcSenderWithContext<ServerToClientMsg>`: identified by the connection it
writes to. -/
structure IpcSender where
  conn : Nat
deriving DecidableEq

/-- `IpcReceiverWithContext<ClientToServerMsg>`: identified by the connection
it reads from. -/
structure IpcReceiver where
  conn : Nat
deriving DecidableEq

/-- `IpcReceiverWithContext::new(stream)`. -/
def IpcReceiver.new (stream : LocalSocketStream) : IpcReceiver := ⟨stream.conn⟩

/-- `receiver.get_sender()`: the paired sender over the same connection. -/
def IpcReceiver.get_sender (r : IpcReceiver) : IpcSender := ⟨r.conn⟩

/-- An opaque `ServerToClientMsg`. -/
abbrev ServerToClientMsg := Nat

/-- The server-side OS capability struct.  In the source both fields sit
behind `Arc<Mutex<..>>`, shared by every clone; here the struct is the shared
state itself, threaded through each operation, and the `HashMap<ClientId,
IpcSenderWithContext<..>>` is modelled by its lookup function. -/
structure ServerOsInputOutput where
  orig_termios : Termios
  client_senders : ClientId → Option IpcSender

/-- `ServerOsApi::new_client`: build a receiver over the stream, extract its
paired sender, insert it into `client_senders` under `client_id` (replacing
any previous entry, per `HashMap::insert`), and return the receiver. -/
def new_client (s : ServerOsInputOutput) (client_id : ClientId)
    (stream : LocalSocketStream) : ServerOsInputOutput × IpcReceiver :=
  let receiver := IpcReceiver.new stream
  let sender := receiver.get_sender
  ({ s with client_senders := fun i => if i = client_id then some sender
      else s.client_senders i },
   receiver)

/-- `ServerOsApi::remove_client`: remove the entry if present. -/
def remove_client (s : ServerOsInputOutput) (client_id : ClientId) :
    ServerOsInputOutput :=
  if (s.client_senders client_id).isSome then
    { s with client_senders := fun i => if i = client_id then none
        else s.client_senders i }
  else s

/-- `ServerOsApi::send_to_client`: look the sender up under the lock; when
present, `sender.send(msg)` — modelled as the delivered `(sender, msg)` pair —
otherwise nothing happens.  The registry itself is unchanged either way. -/
def send_to_client (s : ServerOsInputOutput) (client_id : ClientId)
    (msg : ServerToClientMsg) :
    ServerOsInputOutput × Option (IpcSender × ServerToClientMsg) :=
  match s.client_senders client_id with
  | some sender => (s, some (sender, msg))
  | none => (s, none)

/-- `ServerOsApi::spawn_terminal` for `ServerOsInputOutput`: takes the
`orig_termios` lock and passes `orig_termios.clone()` — a snapshot of the
current value — to the free `spawn_terminal`.  Only the snapshot read is
modelled; the fork itself happens on the OS side. -/
def spawn_terminal_snapshot (s : ServerOsInputOutput) :
    ServerOsInputOutput × Termios :=
  (s, s.orig_termios)

/-- `ServerOsApi::box_clone`: clones the struct; the `Arc` fields make the
clone share the same underlying state, so in this state-threaded model the
clone is the state itself. -/
def box_clone (s : ServerOsInputOutput) : ServerOsInputOutput := s

/-! ## Theorems for C4 and C5 -/

/-- C4: resolving an "open file F" run target uses `EDITOR` when it is set;
falls back to `VISUAL` when `EDITOR` is unset and `VISUAL` is set; in both
cases the argument list is exactly `[F]`; and when neither is set the
resolution is fatal (process-terminating). -/
theorem open_file_editor_resolution (env : Env) (f e v : String) :
    (env "EDITOR" = some e →
      spawn_terminal_run_target env (some (TerminalAction.openFile f)) =
        ResolvedCmd.ok ⟨e, [f]⟩) ∧
    (env "EDITOR" = none → env "VISUAL" = some v →
      spawn_terminal_run_target env (some (TerminalAction.openFile f)) =
        ResolvedCmd.ok ⟨v, [f]⟩) ∧
    (env "EDITOR" = none → env "VISUAL" = none →
      spawn_terminal_run_target env (some (TerminalAction.openFile f)) =
        ResolvedCmd.fatalMissingEditor) := by
  refine ⟨?_, ?_, ?_⟩
  · intro hE
    simp [spawn_terminal_run_target, hE]
  · intro hE hV
    simp [spawn_terminal_run_target, hE, hV]
  · intro hE hV
    simp [spawn_terminal_run_target, hE, hV]

/-- Witness for C4: the three hypotheses discharged at concrete
environments. -/
theorem open_file_editor_resolution_witness :
    spawn_terminal_run_target envEditorOnly (some (TerminalAction.openFile "a.txt")) =
      ResolvedCmd.ok ⟨"/usr/bin/vim", ["a.txt"]⟩ ∧
    spawn_terminal_run_target envVisualOnly (some (TerminalAction.openFile "a.txt")) =
      ResolvedCmd.ok ⟨"/usr/bin/emacs", ["a.txt"]⟩ ∧
    spawn_terminal_run_target envEmpty (some (TerminalAction.openFile "a.txt")) =
      ResolvedCmd.fatalMissingEditor :=
  ⟨(open_file_editor_resolution envEditorOnly "a.txt" "/usr/bin/vim" "x").1 (by decide),
   (open_file_editor_resolution envVisualOnly "a.txt" "x" "/usr/bin/emacs").2.1
     (by decide) (by decide),
   (open_file_editor_resolution envEmpty "a.txt" "x" "y").2.2 rfl rfl⟩

/-- C5: `set_terminal_size_using_fd` on the capability interface performs no
terminal-control call when either dimension is zero, and issues exactly the
window-geometry ioctl when both are positive. -/
theorem set_terminal_size_guard (fd : Int) (cols rows : Nat) :
    ((cols = 0 ∨ rows = 0) → server_set_terminal_size fd cols rows = []) ∧
    (0 < cols → 0 < rows →
      server_set_terminal_size fd cols rows =
        [TermCtlCall.ioctlSetWinsize fd cols rows]) := by
  constructor
  · intro h
    rcases h with h | h <;> simp [server_set_terminal_size, h]
  · intro hc hr
    simp [server_set_terminal_size, hc, hr, set_terminal_size_using_fd]

/-- Witness for C5: both branches exercised at concrete dimensions. -/
theorem set_terminal_size_guard_witness :
    server_set_terminal_size 3 0 24 = [] ∧
    server_set_terminal_size 3 80 24 = [TermCtlCall.ioctlSetWinsize 3 80 24] :=
  ⟨(set_terminal_size_guard 3 0 24).1 (Or.inl rfl),
   (set_terminal_size_guard 3 80 24).2 (by decide) (by decide)⟩

/-! ## Supervisor lemmas -/

/-- Unfolding of one loop iteration of `handle_command_exit`. -/
theorem handle_command_exit_succ (fuel iter : Nat) (st : SupState)
    (tw : Nat → TryWaitRes) (sig : Nat → Bool) :
    handle_command_exit (fuel + 1) iter st tw sig =
      match tw iter with
      | TryWaitRes.exited => [SupEvent.reap]
      | TryWaitRes.waitErr => [SupEvent.panicHit]
      | TryWaitRes.running =>
        SupEvent.pollSleep ::
          (if st.should_exit = false then
            if sig iter then
              SupEvent.checkSignals :: SupEvent.escalate ::
                handle_command_exit fuel (iter+1) ⟨true, st.attempts⟩ tw sig
            else
              SupEvent.checkSignals :: handle_command_exit fuel (iter+1) st tw sig
          else if 0 < st.attempts then
            SupEvent.sendTerm ::
              handle_command_exit fuel (iter+1) ⟨st.should_exit, st.attempts - 1⟩ tw sig
          else
            [SupEvent.sendKill]) := rfl

/-- Against a child that keeps running, the escalation phase entered with
`should_exit = true` and 3 attempts left produces exactly three SIGTERMs and
one kill, one poll-sleep before each. -/
theorem handle_command_exit_escalation (fuel iter : Nat) (tw : Nat → TryWaitRes)
    (sig : Nat → Bool) (hw : ∀ i, tw i = TryWaitRes.running) :
    handle_command_exit (fuel + 4) iter ⟨true, 3⟩ tw sig = escalationTail := by
  show handle_command_exit (fuel + 3 + 1) iter ⟨true, 3⟩ tw sig = escalationTail
  rw [handle_command_exit_succ, hw]
  show SupEvent.pollSleep :: SupEvent.sendTerm ::
      handle_command_exit (fuel + 2 + 1) (iter + 1) ⟨true, 2⟩ tw sig = _
  rw [handle_command_exit_succ, hw]
  show SupEvent.pollSleep :: SupEvent.sendTerm :: SupEvent.pollSleep :: SupEvent.sendTerm ::
      handle_command_exit (fuel + 1 + 1) (iter + 2) ⟨true, 1⟩ tw sig = _
  rw [handle_command_exit_succ, hw]
  show SupEvent.pollSleep :: SupEvent.sendTerm :: SupEvent.pollSleep :: SupEvent.sendTerm ::
      SupEvent.pollSleep :: SupEvent.sendTerm ::
      handle_command_exit (fuel + 0 + 1) (iter + 3) ⟨true, 0⟩ tw sig = _
  rw [handle_command_exit_succ, hw]
  rfl

/-- Full trace of a run against a never-exiting child where a SIGINT/SIGTERM
becomes pending at check number `iter + k`: `k` idle iterations, then the
iteration that observes the signal and escalates, then the escalation tail. -/
theorem handle_command_exit_shape (k : Nat) : ∀ fuel iter (tw : Nat → TryWaitRes)
    (sig : Nat → Bool), (∀ i, tw i = TryWaitRes.running) →
    (∀ i, sig i = decide (iter + k ≤ i)) →
    handle_command_exit (fuel + (k + 5)) iter ⟨false, 3⟩ tw sig =
      idleTrace k ++ SupEvent.pollSleep :: SupEvent.checkSignals :: SupEvent.escalate ::
        escalationTail := by
  induction k with
  | zero =>
    intro fuel iter tw sig hw hs
    have hsig : sig iter = true := by
      rw [hs iter, decide_eq_true_iff]
      omega
    show handle_command_exit (fuel + 4 + 1) iter ⟨false, 3⟩ tw sig = _
    rw [handle_command_exit_succ, hw, hsig]
    simp only [idleTrace, List.nil_append]
    show SupEvent.pollSleep :: SupEvent.checkSignals :: SupEvent.escalate ::
        handle_command_exit (fuel + 4) (iter + 1) ⟨true, 3⟩ tw sig = _
    rw [handle_command_exit_escalation fuel (iter + 1) tw sig hw]
  | succ k ih =>
    intro fuel iter tw sig hw hs
    have hsig : sig iter = false := by
      rw [hs iter, decide_eq_false_iff_not]
      omega
    show handle_command_exit (fuel + (k + 5) + 1) iter ⟨false, 3⟩ tw sig = _
    rw [handle_command_exit_succ, hw, hsig]
    have hs' : ∀ i, sig i = decide ((iter + 1) + k ≤ i) := by
      intro i
      rw [hs i, decide_eq_decide]
      omega
    show SupEvent.pollSleep :: SupEvent.checkSignals ::
        handle_command_exit (fuel + (k + 5)) (iter + 1) ⟨false, 3⟩ tw sig = _
    rw [ih fuel (iter + 1) tw sig hw hs']
    simp [idleTrace]

/-- Idle iterations contribute no signals to the child. -/
theorem signalsSent_idleTrace (k : Nat) (L : List SupEvent) :
    signalsSent (idleTrace k ++ L) = signalsSent L := by
  induction k with
  | zero => simp [idleTrace]
  | succ k ih => simpa [idleTrace, signalsSent, List.filter] using ih

/-- Idle iterations do not disturb the sleep-separation scan. -/
theorem sleepSeparated_idleTrace (k : Nat) (L : List SupEvent) :
    sleepSeparated (idleTrace k ++ L) true = sleepSeparated L true := by
  induction k with
  | zero => simp [idleTrace]
  | succ k ih =>
    show sleepSeparated (SupEvent.pollSleep :: SupEvent.checkSignals :: (idleTrace k ++ L))
        true = _
    rw [sleepSeparated, sleepSeparated, ih]

/-- Idle iterations only drain signals before escalation has begun. -/
theorem noCheckAfterEscalate_idleTrace (k : Nat) (L : List SupEvent) :
    noCheckAfterEscalate (idleTrace k ++ L) false = noCheckAfterEscalate L false := by
  induction k with
  | zero => simp [idleTrace]
  | succ k ih =>
    show noCheckAfterEscalate
        (SupEvent.pollSleep :: SupEvent.checkSignals :: (idleTrace k ++ L)) false = _
    rw [noCheckAfterEscalate, noCheckAfterEscalate]
    simpa using ih

/-- Idle iterations consist only of sleeps and signal drains. -/
theorem mem_idleTrace (e : SupEvent) (k : Nat) (h : e ∈ idleTrace k) :
    e = SupEvent.pollSleep ∨ e = SupEvent.checkSignals := by
  induction k with
  | zero => simp [idleTrace] at h
  | succ k ih =>
    simp only [idleTrace, List.mem_cons] at h
    rcases h with h | h | h
    · exact Or.inl h
    · exact Or.inr h
    · exact ih h

/-- C2: against a command process that never exits, once the supervisor
observes a pending interrupt/terminate signal (first pending at check `k`),
the signals it sends to the child are exactly three SIGTERMs followed by one
kill, with at least one poll-interval sleep between consecutive signals, and
it never drains pending external signals again once escalation has begun.
`m + (k + 5)` iterations of fuel suffice for the whole run. -/
theorem supervisor_escalation_protocol (k m : Nat) :
    signalsSent (handle_command_exit (m + (k + 5)) 0 ⟨false, 3⟩
        (fun _ => TryWaitRes.running) (fun i => decide (k ≤ i))) =
      [SupEvent.sendTerm, SupEvent.sendTerm, SupEvent.sendTerm, SupEvent.sendKill] ∧
    sleepSeparated (handle_command_exit (m + (k + 5)) 0 ⟨false, 3⟩
        (fun _ => TryWaitRes.running) (fun i => decide (k ≤ i))) true = true ∧
    noCheckAfterEscalate (handle_command_exit (m + (k + 5)) 0 ⟨false, 3⟩
        (fun _ => TryWaitRes.running) (fun i => decide (k ≤ i))) false = true := by
  have htr := handle_command_exit_shape k m 0 (fun _ => TryWaitRes.running)
    (fun i => decide (k ≤ i)) (fun _ => rfl)
    (fun i => by rw [decide_eq_decide]; omega)
  rw [htr]
  refine ⟨?_, ?_, ?_⟩
  · rw [signalsSent_idleTrace]
    decide
  · rw [sleepSeparated_idleTrace]
    decide
  · rw [noCheckAfterEscalate_idleTrace]
    decide

/-- C6: against a command process that exits on its own (first observed exited
at poll `n`) with no interrupt/terminate signal ever pending, the supervisor
runs `n` idle iterations and then reaps: it never takes the escalation
transition (`Running` to `Terminating`, the `escalate` event) and never sends
the child any signal. -/
theorem supervisor_natural_exit (n m : Nat) :
    handle_command_exit (m + (n + 1)) 0 ⟨false, 3⟩
        (fun i => if n ≤ i then TryWaitRes.exited else TryWaitRes.running)
        (fun _ => false) =
      idleTrace n ++ [SupEvent.reap] ∧
    SupEvent.escalate ∉ handle_command_exit (m + (n + 1)) 0 ⟨false, 3⟩
        (fun i => if n ≤ i then TryWaitRes.exited else TryWaitRes.running)
        (fun _ => false) ∧
    SupEvent.sendTerm ∉ handle_command_exit (m + (n + 1)) 0 ⟨false, 3⟩
        (fun i => if n ≤ i then TryWaitRes.exited else TryWaitRes.running)
        (fun _ => false) ∧
    SupEvent.sendKill ∉ handle_command_exit (m + (n + 1)) 0 ⟨false, 3⟩
        (fun i => if n ≤ i then TryWaitRes.exited else TryWaitRes.running)
        (fun _ => false) := by
  have key : ∀ n fuel iter (tw : Nat → TryWaitRes) (sig : Nat → Bool),
      (∀ i, tw i = if iter + n ≤ i then TryWaitRes.exited else TryWaitRes.running) →
      (∀ i, sig i = false) →
      handle_command_exit (fuel + (n + 1)) iter ⟨false, 3⟩ tw sig =
        idleTrace n ++ [SupEvent.reap] := by
    intro n
    induction n with
    | zero =>
      intro fuel iter tw sig hw hs
      have h0 : tw iter = TryWaitRes.exited := by
        rw [hw iter, if_pos]
        omega
      show handle_command_exit (fuel + 0 + 1) iter ⟨false, 3⟩ tw sig = _
      rw [handle_command_exit_succ, h0]
      simp [idleTrace]
    | succ n ih =>
      intro fuel iter tw sig hw hs
      have h0 : tw iter = TryWaitRes.running := by
        rw [hw iter, if_neg]
        omega
      show handle_command_exit (fuel + (n + 1) + 1) iter ⟨false, 3⟩ tw sig = _
      rw [handle_command_exit_succ, h0, hs]
      have hw' : ∀ i, tw i =
          if (iter + 1) + n ≤ i then TryWaitRes.exited else TryWaitRes.running := by
        intro i
        rw [hw i]
        by_cases hif : iter + (n + 1) ≤ i
        · rw [if_pos hif, if_pos (by omega)]
        · rw [if_neg hif, if_neg (by omega)]
      show SupEvent.pollSleep :: SupEvent.checkSignals ::
          handle_command_exit (fuel + (n + 1)) (iter + 1) ⟨false, 3⟩ tw sig = _
      rw [ih fuel (iter + 1) tw sig hw' hs]
      simp [idleTrace]
  have htr := key n m 0
    (fun i => if n ≤ i then TryWaitRes.exited else TryWaitRes.running)
    (fun _ => false)
    (fun i => by simp)
    (fun _ => rfl)
  refine ⟨htr, ?_, ?_, ?_⟩ <;>
    · rw [htr]
      intro hmem
      rcases List.mem_append.mp hmem with h | h
      · rcases mem_idleTrace _ _ h with h' | h' <;> exact absurd h' (by decide)
      · exact absurd (List.mem_singleton.mp h) (by decide)

/-! ## Registry lemmas and theorems for C1, C3, C7, C8, C9, C10 -/

/-- Removing an absent client leaves the state untouched. -/
theorem remove_client_of_none (s : ServerOsInputOutput) (id : ClientId)
    (h : s.client_senders id = none) : remove_client s id = s := by
  simp [remove_client, h]

/-- After `remove_client`, no sender is registered for that id. -/
theorem remove_client_senders_self (s : ServerOsInputOutput) (id : ClientId) :
    (remove_client s id).client_senders id = none := by
  cases h : s.client_senders id with
  | none => rw [remove_client_of_none s id h]; exact h
  | some sender => simp [remove_client, h]

/-- C1 counterexample: `ServerOsApi::kill` on an already-reaped pid neither
succeeds nor returns any error value to the caller — the claimed "succeeds or
returns a no-such-process condition" is false there (the `unwrap` panics). -/
theorem kill_reaped_returns_nothing :
    ¬ ∃ r : Except NixError Unit,
      (server_kill ProcState.reaped).2 = KillOutcome.ret r := by
  rintro ⟨r, h⟩
  simp [server_kill, kill_syscall] at h

/-- C1 (amended): `ServerOsApi::kill` on an already-exited process either
succeeds immediately — the zombie case: SIGTERM is delivered and `waitpid`
reaps at once — or, when the process is already reaped, the ESRCH signal
failure makes the `unwrap` panic (fatal), rather than returning an error to
the caller; in neither case does it block. -/
theorem kill_already_exited :
    (server_kill ProcState.zombie).2 = KillOutcome.ret (Except.ok ()) ∧
    (server_kill ProcState.reaped).2 = KillOutcome.panicked := by
  exact ⟨rfl, rfl⟩

/-- C7: `force_kill` sends exactly one unconditional SIGKILL, performs no
`waitpid` (does not block on reaping), always returns `Ok(())`, and swallows
any signal-delivery error. -/
theorem force_kill_best_effort (ps : ProcState) (e : NixError) :
    (force_kill ps).1 = [OsCall.killCall Sig.SIGKILL] ∧
    OsCall.waitpidCall ∉ (force_kill ps).1 ∧
    (force_kill ps).2 = KillOutcome.ret (Except.ok ()) ∧
    (kill_syscall ps Sig.SIGKILL = Except.error e →
      (force_kill ps).2 = KillOutcome.ret (Except.ok ())) := by
  refine ⟨rfl, ?_, rfl, fun _ => rfl⟩
  simp [force_kill]

/-- Witness for C7: at an already-reaped process the SIGKILL delivery fails
with ESRCH, yet `force_kill` still returns `Ok(())`. -/
theorem force_kill_best_effort_witness :
    kill_syscall ProcState.reaped Sig.SIGKILL = Except.error NixError.ESRCH ∧
    (force_kill ProcState.reaped).2 = KillOutcome.ret (Except.ok ()) :=
  ⟨rfl, (force_kill_best_effort ProcState.reaped NixError.ESRCH).2.2.2 rfl⟩

/-- C3: `new_client` followed immediately by `send_to_client` on the same id
delivers the message to the sender constructed at registration (the paired
sender of the receiver built over the stream); after `remove_client` on that
id, the same `send_to_client` delivers nothing and does not fail. -/
theorem register_then_send (s : ServerOsInputOutput) (id : ClientId)
    (stream : LocalSocketStream) (msg : ServerToClientMsg) :
    (send_to_client (new_client s id stream).1 id msg).2 =
      some ((IpcReceiver.new stream).get_sender, msg) ∧
    (send_to_client (remove_client (new_client s id stream).1 id) id msg).2 =
      none := by
  constructor
  · simp [new_client, send_to_client]
  · have h := remove_client_senders_self (new_client s id stream).1 id
    simp [send_to_client, h]

/-- C9: `remove_client` removes the entry for the given id when present,
leaves every other id untouched, is idempotent, and does not fail on an id
that was never registered (it leaves the state exactly as it was). -/
theorem remove_client_idempotent (s : ServerOsInputOutput) (id j : ClientId) :
    (remove_client s id).client_senders id = none ∧
    (j ≠ id → (remove_client s id).client_senders j = s.client_senders j) ∧
    remove_client (remove_client s id) id = remove_client s id ∧
    (s.client_senders id = none → remove_client s id = s) := by
  refine ⟨remove_client_senders_self s id, ?_, ?_, remove_client_of_none s id⟩
  · intro hj
    cases h : s.client_senders id with
    | none => rw [remove_client_of_none s id h]
    | some sender => simp [remove_client, h, hj]
  · exact remove_client_of_none _ _ (remove_client_senders_self s id)

/-- A concrete registry state for the witnesses: client 1 registered, all
other ids free. -/
def sampleState : ServerOsInputOutput :=
  ⟨⟨0⟩, fun i => if i = 1 then some ⟨7⟩ else none⟩

/-- Witness for C9: removing client 2 does not disturb client 1's entry, and
removing the never-registered client 3 leaves the state unchanged. -/
theorem remove_client_idempotent_witness :
    (remove_client sampleState 2).client_senders 1 = sampleState.client_senders 1 ∧
    remove_client sampleState 3 = sampleState :=
  ⟨(remove_client_idempotent sampleState 2 1).2.1 (by decide),
   (remove_client_idempotent sampleState 3 0).2.2.2 rfl⟩

/-- C10: registering an already-registered id does not fail: the second
`new_client` silently replaces the stored sender with the one derived from
the new connection (most recent registration wins — the old sender is no
longer reachable), and other ids are untouched; the map model holds at most
one sender per id by construction. -/
theorem new_client_replaces (s : ServerOsInputOutput) (id j : ClientId)
    (st1 st2 : LocalSocketStream) :
    ((new_client (new_client s id st1).1 id st2).1).client_senders id =
      some (IpcReceiver.new st2).get_sender ∧
    (st1.conn ≠ st2.conn →
      ((new_client (new_client s id st1).1 id st2).1).client_senders id ≠
        some (IpcReceiver.new st1).get_sender) ∧
    (j ≠ id → ((new_client (new_client s id st1).1 id st2).1).client_senders j =
      s.client_senders j) := by
  refine ⟨?_, ?_, ?_⟩
  · simp [new_client]
  · intro hne h
    simp [new_client, IpcReceiver.new, IpcReceiver.get_sender] at h
    exact hne h.symm
  · intro hj
    simp [new_client, hj]

/-- Witness for C10: re-registering id 5 over distinct connections 10 and 11
keeps only the connection-11 sender, and id 4 is untouched. -/
theorem new_client_replaces_witness :
    ((new_client (new_client sampleState 5 ⟨10⟩).1 5 ⟨11⟩).1).client_senders 5 ≠
      some (IpcReceiver.new ⟨10⟩).get_sender ∧
    ((new_client (new_client sampleState 5 ⟨10⟩).1 5 ⟨11⟩).1).client_senders 4 =
      sampleState.client_senders 4 :=
  ⟨(new_client_replaces sampleState 5 4 ⟨10⟩ ⟨11⟩).2.1 (by decide),
   (new_client_replaces sampleState 5 4 ⟨10⟩ ⟨11⟩).2.2 (by decide)⟩

/-- C8: the origin terminal state is never mutated after initialization:
`spawn_terminal` reads exactly the current snapshot and leaves it unchanged,
every registry operation leaves it unchanged (the remaining interface
operations — reads, writes, tcdrain, kill, force_kill, set_terminal_size,
load_palette — never touch the struct's fields at all, as their models take
no state), and a clone of the capability is the same shared state. -/
theorem orig_termios_immutable (s : ServerOsInputOutput) (id : ClientId)
    (stream : LocalSocketStream) (msg : ServerToClientMsg) :
    (spawn_terminal_snapshot s).2 = s.orig_termios ∧
    ((spawn_terminal_snapshot s).1).orig_termios = s.orig_termios ∧
    ((new_client s id stream).1).orig_termios = s.orig_termios ∧
    (remove_client s id).orig_termios = s.orig_termios ∧
    ((send_to_client s id msg).1).orig_termios = s.orig_termios ∧
    box_clone s = s := by
  refine ⟨rfl, rfl, rfl, ?_, ?_, rfl⟩
  · by_cases h : (s.client_senders id).isSome <;> simp [remove_client, h]
  · cases h : s.client_senders id <;> simp [send_to_client, h]

end Zellij
